import Mathlib

/-!
Verification of the multi-source profile aggregation engine of this repository
(`src/app/aggregator.py`, `src/app/aggregator_schema.py`,
`src/services/resume_parser/*`, `src/services/linkedin_profile_scraper/*`,
`src/services/github_scraper/github_scraper.py`, `src/services/utils.py`).

The Python code is shallowly embedded:

* JSON documents (the oracle's responses, `json.dumps` output) are an inductive
  `Json` AST.  Python floats appearing in JSON are modelled as exact rationals
  (the decimal literal), since no claim depends on binary rounding.
* Each pydantic model becomes a Lean structure; `Model.model_validate_json`
  becomes an executable `validateX : Json → Option X` (`none` = pydantic
  `ValidationError`), with pydantic's rules: unknown keys ignored, a missing
  key takes the field default or fails when the field is required, `null` is
  only legal for `Optional` fields.
* pydantic `AnyUrl` / `EmailStr` validation-with-normalisation is modelled by
  `parseUrl` / `normEmail` (scheme/host shape checks, lower-casing, pydantic's
  trailing-slash normalisation); validated fields store the normalised string.
* `services.utils.to_serializable` followed by `json.dumps` becomes
  `serializeX : X → Json` (every field emitted, `None` as `null`, `AnyUrl`
  rendered as its string).
* Network and LLM calls are external: each HTTP response / oracle response is
  a parameter of the embedded function, exactly where the Python code reads
  `response.json()` or `response.text`.
-/

/-- A JSON number: either a Python `int` or a Python `float` literal (kept as
an exact rational, which is faithful for every value any claim exercises). -/
inductive NumVal where
  | i : Int → NumVal
  | f : Rat → NumVal
deriving DecidableEq, Repr

/-- JSON documents, as produced by `json.loads` / consumed by `json.dumps`. -/
inductive Json where
  | null : Json
  | bool : Bool → Json
  | num : NumVal → Json
  | str : String → Json
  | arr : List Json → Json
  | obj : List (String × Json) → Json

/-- First value bound to key `k` in a JSON object's field list (Python dict
lookup; later duplicates are shadowed exactly as `json.loads` keeps the last —
none of the documents in play have duplicate keys). -/
def getField : List (String × Json) → String → Option Json
  | [], _ => none
  | (k', v) :: fs, k => if k' = k then some v else getField fs k

/-- Split a character list at the first occurrence of `://`. -/
def splitScheme : List Char → Option (List Char × List Char)
  | [] => none
  | ':' :: '/' :: '/' :: rest => some ([], rest)
  | c :: rest => (splitScheme rest).map (fun p => (c :: p.1, p.2))

/-- Model of pydantic `AnyUrl` validation and normalisation: an absolute URI
needs a nonempty alphabetic scheme before `://` and a nonempty remainder; the
scheme is lower-cased and, as pydantic does, a bare authority gets a trailing
`/` path.  Returns the normalised URL string, `none` = `ValidationError`. -/
def parseUrl (s : String) : Option String :=
  match splitScheme s.data with
  | none => none
  | some (scheme, rest) =>
      if scheme ≠ [] ∧ scheme.all Char.isAlpha ∧ rest ≠ [] then
        some (String.mk (scheme.map Char.toLower ++ ':' :: '/' :: '/' ::
          (if rest.contains '/' then rest else rest ++ ['/'])))
      else none

/-- Split a character list at the first `@`. -/
def splitAtSign : List Char → Option (List Char × List Char)
  | [] => none
  | '@' :: rest => some ([], rest)
  | c :: rest => (splitAtSign rest).map (fun p => (c :: p.1, p.2))

/-- Model of pydantic `EmailStr` validation and normalisation: a nonempty
local part, a single `@`, a nonempty dotted domain, no spaces; the domain is
lower-cased.  Returns the normalised address, `none` = `ValidationError`. -/
def normEmail (s : String) : Option String :=
  match splitAtSign s.data with
  | none => none
  | some (loc, dom) =>
      if loc ≠ [] ∧ ¬ loc.contains ' ' ∧
         dom ≠ [] ∧ dom.contains '.' ∧ ¬ dom.contains '@' ∧ ¬ dom.contains ' ' then
        some (String.mk (loc ++ '@' :: dom.map Char.toLower))
      else none

/-! ### JSON decoders for the primitive pydantic field types -/

def jStr? : Json → Option String
  | .str s => some s
  | _ => none

def jInt? : Json → Option Int
  | .num (.i n) => some n
  | _ => none

def jNum? : Json → Option NumVal
  | .num v => some v
  | _ => none

def jBool? : Json → Option Bool
  | .bool b => some b
  | _ => none

/-- `AnyUrl` field: validate and store the normalised URL string. -/
def jUrl? : Json → Option String
  | .str s => parseUrl s
  | _ => none

/-- `EmailStr` field: validate and store the normalised address. -/
def jEmail? : Json → Option String
  | .str s => normEmail s
  | _ => none

/-- `Union[YearType, PresentType]` (`int` or the literal `"Present"`). -/
inductive YearOrPresent where
  | year : Int → YearOrPresent
  | present : YearOrPresent
deriving DecidableEq, Repr

def jYearP? : Json → Option YearOrPresent
  | .num (.i n) => some (.year n)
  | .str s => if s = "Present" then some .present else none
  | _ => none

/-- Decode the value stored under an `Optional[...]` key: `null` is `None`,
anything else must decode. -/
def decodeOptVal (dec : Json → Option α) : Json → Option (Option α)
  | .null => some none
  | j => (dec j).map some

/-- A required pydantic field: the key must be present and decode. -/
def reqField (fs : List (String × Json)) (k : String) (dec : Json → Option α) : Option α :=
  (getField fs k).bind dec

/-- An `Optional[...] = None` pydantic field: a missing key defaults to
`None`, `null` is `None`, a present value must decode. -/
def optField (fs : List (String × Json)) (k : String) (dec : Json → Option α) :
    Option (Option α) :=
  match getField fs k with
  | none => some none
  | some j => decodeOptVal dec j

/-- Decode every element of a JSON array's element list; any element failing
fails the whole list (pydantic validates lists elementwise). -/
def decList (dec : Json → Option α) : List Json → Option (List α)
  | [] => some []
  | x :: xs =>
      match dec x with
      | none => none
      | some a => (decList dec xs).map (a :: ·)

/-- A `List[...] = Field(default_factory=list)` (or `= []`) pydantic field: a
missing key defaults to `[]`, the value must be an array whose elements all
decode (`null` is not a list, so it fails). -/
def listField (fs : List (String × Json)) (k : String) (dec : Json → Option α) :
    Option (List α) :=
  match getField fs k with
  | none => some []
  | some (.arr xs) => decList dec xs
  | some _ => none

/-- A `bool = False` pydantic field. -/
def boolField (fs : List (String × Json)) (k : String) : Option Bool :=
  match getField fs k with
  | none => some false
  | some j => jBool? j

/-! ### Serializers for the primitive field types
(`services/utils.py::to_serializable` composed with `json.dumps`) -/

def serOpt (ser : α → Json) : Option α → Json
  | none => Json.null
  | some a => ser a

def serStr (s : String) : Json := .str s
def serInt (n : Int) : Json := .num (.i n)
def serNum (v : NumVal) : Json := .num v

def serYearP : YearOrPresent → Json
  | .year n => .num (.i n)
  | .present => .str "Present"

/-! ### `src/app/aggregator_schema.py` — the canonical UnifiedProfile schema

Each pydantic class becomes a structure; `Literal[...]` string enums become
inductives so that a validated object cannot hold an out-of-range tag. -/

/-- `Literal["GPA", "CGPA", "PERCENTAGE", "MARKS", "OTHER"]`. -/
inductive GradeKind where
  | GPA | CGPA | PERCENTAGE | MARKS | OTHER
deriving DecidableEq, Repr

/-- `Literal["resume", "linkedin"]` (the `source` elements of entities that
only resume and LinkedIn can contribute to). -/
inductive RLSource where
  | resume | linkedin
deriving DecidableEq, Repr

/-- `Literal["resume", "linkedin", "github"]`. -/
inductive RLGSource where
  | resume | linkedin | github
deriving DecidableEq, Repr

structure Grade where
  value : NumVal
  type : GradeKind
  scale : NumVal
  description : Option String
deriving DecidableEq, Repr

structure ContactInfo where
  name : String
  email : Option String
  phone : Option String
  location : Option String
  headline : Option String
  summary : Option String
deriving DecidableEq, Repr

structure SocialLinks where
  linkedin : Option String
  github : Option String
  portfolio : Option String
  other_links : List String
deriving DecidableEq, Repr

structure UnifiedEducation where
  institute : String
  degree : Option String
  field_of_study : Option String
  start_year : Option Int
  end_year : Option YearOrPresent
  start_date_raw : Option String
  end_date_raw : Option String
  grade_info : Option Grade
  description : Option String
  source : List RLSource
deriving DecidableEq, Repr

structure UnifiedExperience where
  company : String
  title : String
  start_year : Option Int
  end_year : Option YearOrPresent
  start_date_raw : Option String
  end_date_raw : Option String
  duration_raw : Option String
  location : Option String
  description_points : List String
  source : List RLSource
deriving DecidableEq, Repr

structure UnifiedProject where
  name : String
  description_points : List String
  link : Option String
  start_date_raw : Option String
  end_date_raw : Option String
  associated_with : Option String
  technologies : List String
  github_stars : Option Int
  github_forks : Option Int
  is_github_repo : Bool
  source : List RLGSource
deriving DecidableEq, Repr

structure SkillCategory where
  category_name : String
  skills : List String
  source : List RLGSource
deriving DecidableEq, Repr

structure UnifiedCertification where
  name : String
  issuing_organization : Option String
  issue_year : Option Int
  expiration_year : Option YearOrPresent
  issue_date_raw : Option String
  expiration_date_raw : Option String
  credential_id : Option String
  credential_url : Option String
  source : List RLSource
deriving DecidableEq, Repr

structure PositionOfResponsibility where
  title : String
  organization : String
  start_year : Option Int
  end_year : Option YearOrPresent
  start_date_raw : Option String
  end_date_raw : Option String
  description_points : List String
  source : List RLSource
deriving DecidableEq, Repr

structure FinalSchema where
  contact_info : ContactInfo
  social_links : SocialLinks
  education : List UnifiedEducation
  experience : List UnifiedExperience
  projects : List UnifiedProject
  skills : List SkillCategory
  certifications : List UnifiedCertification
  achievements : List String
  positions_of_responsibility : List PositionOfResponsibility
  courses : List String
  data_sources : List RLGSource
  last_updated : Option String
deriving DecidableEq, Repr

/-! ### Validation (`FinalSchema.model_validate_json`) -/

def jGradeKind? : Json → Option GradeKind
  | .str "GPA" => some .GPA
  | .str "CGPA" => some .CGPA
  | .str "PERCENTAGE" => some .PERCENTAGE
  | .str "MARKS" => some .MARKS
  | .str "OTHER" => some .OTHER
  | _ => none

def jSrc2? : Json → Option RLSource
  | .str "resume" => some .resume
  | .str "linkedin" => some .linkedin
  | _ => none

def jSrc3? : Json → Option RLGSource
  | .str "resume" => some .resume
  | .str "linkedin" => some .linkedin
  | .str "github" => some .github
  | _ => none

def validateGrade : Json → Option Grade
  | .obj fs => do
      let value ← reqField fs "value" jNum?
      let type ← reqField fs "type" jGradeKind?
      let scale ← reqField fs "scale" jNum?
      let description ← optField fs "description" jStr?
      pure ⟨value, type, scale, description⟩
  | _ => none

def validateContactInfo : Json → Option ContactInfo
  | .obj fs => do
      let name ← reqField fs "name" jStr?
      let email ← optField fs "email" jEmail?
      let phone ← optField fs "phone" jStr?
      let location ← optField fs "location" jStr?
      let headline ← optField fs "headline" jStr?
      let summary ← optField fs "summary" jStr?
      pure ⟨name, email, phone, location, headline, summary⟩
  | _ => none

def validateSocialLinks : Json → Option SocialLinks
  | .obj fs => do
      let linkedin ← optField fs "linkedin" jUrl?
      let github ← optField fs "github" jUrl?
      let portfolio ← optField fs "portfolio" jUrl?
      let other_links ← listField fs "other_links" jUrl?
      pure ⟨linkedin, github, portfolio, other_links⟩
  | _ => none

def validateEducation : Json → Option UnifiedEducation
  | .obj fs => do
      let institute ← reqField fs "institute" jStr?
      let degree ← optField fs "degree" jStr?
      let field_of_study ← optField fs "field_of_study" jStr?
      let start_year ← optField fs "start_year" jInt?
      let end_year ← optField fs "end_year" jYearP?
      let start_date_raw ← optField fs "start_date_raw" jStr?
      let end_date_raw ← optField fs "end_date_raw" jStr?
      let grade_info ← optField fs "grade_info" validateGrade
      let description ← optField fs "description" jStr?
      let source ← listField fs "source" jSrc2?
      pure ⟨institute, degree, field_of_study, start_year, end_year,
            start_date_raw, end_date_raw, grade_info, description, source⟩
  | _ => none

def validateExperience : Json → Option UnifiedExperience
  | .obj fs => do
      let company ← reqField fs "company" jStr?
      let title ← reqField fs "title" jStr?
      let start_year ← optField fs "start_year" jInt?
      let end_year ← optField fs "end_year" jYearP?
      let start_date_raw ← optField fs "start_date_raw" jStr?
      let end_date_raw ← optField fs "end_date_raw" jStr?
      let duration_raw ← optField fs "duration_raw" jStr?
      let location ← optField fs "location" jStr?
      let description_points ← listField fs "description_points" jStr?
      let source ← listField fs "source" jSrc2?
      pure ⟨company, title, start_year, end_year, start_date_raw, end_date_raw,
            duration_raw, location, description_points, source⟩
  | _ => none

def validateProject : Json → Option UnifiedProject
  | .obj fs => do
      let name ← reqField fs "name" jStr?
      let description_points ← listField fs "description_points" jStr?
      let link ← optField fs "link" jUrl?
      let start_date_raw ← optField fs "start_date_raw" jStr?
      let end_date_raw ← optField fs "end_date_raw" jStr?
      let associated_with ← optField fs "associated_with" jStr?
      let technologies ← listField fs "technologies" jStr?
      let github_stars ← optField fs "github_stars" jInt?
      let github_forks ← optField fs "github_forks" jInt?
      let is_github_repo ← boolField fs "is_github_repo"
      let source ← listField fs "source" jSrc3?
      pure ⟨name, description_points, link, start_date_raw, end_date_raw,
            associated_with, technologies, github_stars, github_forks,
            is_github_repo, source⟩
  | _ => none

def validateSkillCategory : Json → Option SkillCategory
  | .obj fs => do
      let category_name ← reqField fs "category_name" jStr?
      let skills ← reqField fs "skills" (fun j => match j with
        | .arr xs => decList jStr? xs
        | _ => none)
      let source ← listField fs "source" jSrc3?
      pure ⟨category_name, skills, source⟩
  | _ => none

def validateCertification : Json → Option UnifiedCertification
  | .obj fs => do
      let name ← reqField fs "name" jStr?
      let issuing_organization ← optField fs "issuing_organization" jStr?
      let issue_year ← optField fs "issue_year" jInt?
      let expiration_year ← optField fs "expiration_year" jYearP?
      let issue_date_raw ← optField fs "issue_date_raw" jStr?
      let expiration_date_raw ← optField fs "expiration_date_raw" jStr?
      let credential_id ← optField fs "credential_id" jStr?
      let credential_url ← optField fs "credential_url" jUrl?
      let source ← listField fs "source" jSrc2?
      pure ⟨name, issuing_organization, issue_year, expiration_year,
            issue_date_raw, expiration_date_raw, credential_id, credential_url,
            source⟩
  | _ => none

def validatePosition : Json → Option PositionOfResponsibility
  | .obj fs => do
      let title ← reqField fs "title" jStr?
      let organization ← reqField fs "organization" jStr?
      let start_year ← optField fs "start_year" jInt?
      let end_year ← optField fs "end_year" jYearP?
      let start_date_raw ← optField fs "start_date_raw" jStr?
      let end_date_raw ← optField fs "end_date_raw" jStr?
      let description_points ← listField fs "description_points" jStr?
      let source ← listField fs "source" jSrc2?
      pure ⟨title, organization, start_year, end_year, start_date_raw,
            end_date_raw, description_points, source⟩
  | _ => none

/-- `FinalSchema.model_validate_json` on an already-JSON-parsed document:
`contact_info` and `social_links` are required, every section list defaults to
`[]`, `last_updated` defaults to `None`.  `none` models pydantic raising
`ValidationError`. -/
def validateFinal : Json → Option FinalSchema
  | .obj fs => do
      let contact_info ← reqField fs "contact_info" validateContactInfo
      let social_links ← reqField fs "social_links" validateSocialLinks
      let education ← listField fs "education" validateEducation
      let experience ← listField fs "experience" validateExperience
      let projects ← listField fs "projects" validateProject
      let skills ← listField fs "skills" validateSkillCategory
      let certifications ← listField fs "certifications" validateCertification
      let achievements ← listField fs "achievements" jStr?
      let positions_of_responsibility ← listField fs "positions_of_responsibility" validatePosition
      let courses ← listField fs "courses" jStr?
      let data_sources ← listField fs "data_sources" jSrc3?
      let last_updated ← optField fs "last_updated" jStr?
      pure ⟨contact_info, social_links, education, experience, projects, skills,
            certifications, achievements, positions_of_responsibility, courses,
            data_sources, last_updated⟩
  | _ => none

/-! ### Serialization of a validated profile
(`to_serializable` walks `__dict__` in declaration order, rendering pydantic
models as objects, `AnyUrl` as `str(url)`, lists as arrays, `None` as `null`) -/

def serGradeKind : GradeKind → Json
  | .GPA => .str "GPA"
  | .CGPA => .str "CGPA"
  | .PERCENTAGE => .str "PERCENTAGE"
  | .MARKS => .str "MARKS"
  | .OTHER => .str "OTHER"

def serSrc2 : RLSource → Json
  | .resume => .str "resume"
  | .linkedin => .str "linkedin"

def serSrc3 : RLGSource → Json
  | .resume => .str "resume"
  | .linkedin => .str "linkedin"
  | .github => .str "github"

def serializeGrade (g : Grade) : Json :=
  .obj [("value", serNum g.value), ("type", serGradeKind g.type),
        ("scale", serNum g.scale), ("description", serOpt serStr g.description)]

def serializeContactInfo (c : ContactInfo) : Json :=
  .obj [("name", serStr c.name), ("email", serOpt serStr c.email),
        ("phone", serOpt serStr c.phone), ("location", serOpt serStr c.location),
        ("headline", serOpt serStr c.headline), ("summary", serOpt serStr c.summary)]

def serializeSocialLinks (s : SocialLinks) : Json :=
  .obj [("linkedin", serOpt serStr s.linkedin), ("github", serOpt serStr s.github),
        ("portfolio", serOpt serStr s.portfolio),
        ("other_links", .arr (s.other_links.map serStr))]

def serializeEducation (e : UnifiedEducation) : Json :=
  .obj [("institute", serStr e.institute), ("degree", serOpt serStr e.degree),
        ("field_of_study", serOpt serStr e.field_of_study),
        ("start_year", serOpt serInt e.start_year),
        ("end_year", serOpt serYearP e.end_year),
        ("start_date_raw", serOpt serStr e.start_date_raw),
        ("end_date_raw", serOpt serStr e.end_date_raw),
        ("grade_info", serOpt serializeGrade e.grade_info),
        ("description", serOpt serStr e.description),
        ("source", .arr (e.source.map serSrc2))]

def serializeExperience (e : UnifiedExperience) : Json :=
  .obj [("company", serStr e.company), ("title", serStr e.title),
        ("start_year", serOpt serInt e.start_year),
        ("end_year", serOpt serYearP e.end_year),
        ("start_date_raw", serOpt serStr e.start_date_raw),
        ("end_date_raw", serOpt serStr e.end_date_raw),
        ("duration_raw", serOpt serStr e.duration_raw),
        ("location", serOpt serStr e.location),
        ("description_points", .arr (e.description_points.map serStr)),
        ("source", .arr (e.source.map serSrc2))]

def serializeProject (p : UnifiedProject) : Json :=
  .obj [("name", serStr p.name),
        ("description_points", .arr (p.description_points.map serStr)),
        ("link", serOpt serStr p.link),
        ("start_date_raw", serOpt serStr p.start_date_raw),
        ("end_date_raw", serOpt serStr p.end_date_raw),
        ("associated_with", serOpt serStr p.associated_with),
        ("technologies", .arr (p.technologies.map serStr)),
        ("github_stars", serOpt serInt p.github_stars),
        ("github_forks", serOpt serInt p.github_forks),
        ("is_github_repo", .bool p.is_github_repo),
        ("source", .arr (p.source.map serSrc3))]

def serializeSkillCategory (s : SkillCategory) : Json :=
  .obj [("category_name", serStr s.category_name),
        ("skills", .arr (s.skills.map serStr)),
        ("source", .arr (s.source.map serSrc3))]

def serializeCertification (c : UnifiedCertification) : Json :=
  .obj [("name", serStr c.name),
        ("issuing_organization", serOpt serStr c.issuing_organization),
        ("issue_year", serOpt serInt c.issue_year),
        ("expiration_year", serOpt serYearP c.expiration_year),
        ("issue_date_raw", serOpt serStr c.issue_date_raw),
        ("expiration_date_raw", serOpt serStr c.expiration_date_raw),
        ("credential_id", serOpt serStr c.credential_id),
        ("credential_url", serOpt serStr c.credential_url),
        ("source", .arr (c.source.map serSrc2))]

def serializePosition (p : PositionOfResponsibility) : Json :=
  .obj [("title", serStr p.title), ("organization", serStr p.organization),
        ("start_year", serOpt serInt p.start_year),
        ("end_year", serOpt serYearP p.end_year),
        ("start_date_raw", serOpt serStr p.start_date_raw),
        ("end_date_raw", serOpt serStr p.end_date_raw),
        ("description_points", .arr (p.description_points.map serStr)),
        ("source", .arr (p.source.map serSrc2))]

/-- `to_serializable(validated_output)` on a validated `FinalSchema` object
(this dict is what `parse_all` actually returns to its caller). -/
def serializeFinal (p : FinalSchema) : Json :=
  .obj [("contact_info", serializeContactInfo p.contact_info),
        ("social_links", serializeSocialLinks p.social_links),
        ("education", .arr (p.education.map serializeEducation)),
        ("experience", .arr (p.experience.map serializeExperience)),
        ("projects", .arr (p.projects.map serializeProject)),
        ("skills", .arr (p.skills.map serializeSkillCategory)),
        ("certifications", .arr (p.certifications.map serializeCertification)),
        ("achievements", .arr (p.achievements.map serStr)),
        ("positions_of_responsibility", .arr (p.positions_of_responsibility.map serializePosition)),
        ("courses", .arr (p.courses.map serStr)),
        ("data_sources", .arr (p.data_sources.map serSrc3)),
        ("last_updated", serOpt serStr p.last_updated)]

/-- A JSON array whose elements all decode (a required `list[...]` value). -/
def jList? (dec : Json → Option α) : Json → Option (List α)
  | .arr xs => decList dec xs
  | _ => none

/-- A pydantic field with an explicit default object: a missing key takes the
default, a present value must decode. -/
def fieldD (fs : List (String × Json)) (k : String) (dec : Json → Option α)
    (dflt : α) : Option α :=
  match getField fs k with
  | none => some dflt
  | some j => dec j

/-! ### `src/services/resume_parser/resume_schema.py`

The per-source intermediate `Resume` record (`Grade` there is byte-identical
to the aggregator schema's `Grade`, so the model above is reused).  Namespaced
`Res` to keep the source's class names. -/

namespace Res

structure Education where
  institute : String
  field_of_study : String
  start_year : Int
  end_year : YearOrPresent
  grade_info : Option Grade
deriving DecidableEq, Repr

structure Experience where
  title : String
  company : String
  start_year : Int
  end_year : YearOrPresent
  description_points : List String
deriving DecidableEq, Repr

structure Project where
  name : String
  description_points : List String
  link : String
deriving DecidableEq, Repr

structure SkillCategory where
  category_name : String
  skills : List String
deriving DecidableEq, Repr

structure Certification where
  name : String
  issuing_organization : String
  issue_year : Int
  expiration_year : Option YearOrPresent
  credential_id : Option String
  credential_url : Option String
deriving DecidableEq, Repr

structure PositionOfResponsibility where
  title : String
  organization : String
  start_year : Int
  end_year : YearOrPresent
  description_points : List String
deriving DecidableEq, Repr

structure Resume where
  name : String
  email : String
  phone : Option String
  social_links : List String
  courses : List String
  education : List Education
  experience : List Experience
  projects : List Project
  skills : List SkillCategory
  certifications : List Certification
  achievements : List String
  positions_of_responsibility : List PositionOfResponsibility
deriving DecidableEq, Repr

def validateEducation : Json → Option Education
  | .obj fs => do
      let institute ← reqField fs "institute" jStr?
      let field_of_study ← reqField fs "field_of_study" jStr?
      let start_year ← reqField fs "start_year" jInt?
      let end_year ← reqField fs "end_year" jYearP?
      let grade_info ← optField fs "grade_info" validateGrade
      pure ⟨institute, field_of_study, start_year, end_year, grade_info⟩
  | _ => none

def validateExperience : Json → Option Experience
  | .obj fs => do
      let title ← reqField fs "title" jStr?
      let company ← reqField fs "company" jStr?
      let start_year ← reqField fs "start_year" jInt?
      let end_year ← reqField fs "end_year" jYearP?
      let description_points ← reqField fs "description_points" (jList? jStr?)
      pure ⟨title, company, start_year, end_year, description_points⟩
  | _ => none

def validateProject : Json → Option Project
  | .obj fs => do
      let name ← reqField fs "name" jStr?
      let description_points ← reqField fs "description_points" (jList? jStr?)
      let link ← reqField fs "link" jUrl?
      pure ⟨name, description_points, link⟩
  | _ => none

def validateSkillCategory : Json → Option SkillCategory
  | .obj fs => do
      let category_name ← reqField fs "category_name" jStr?
      let skills ← reqField fs "skills" (jList? jStr?)
      pure ⟨category_name, skills⟩
  | _ => none

def validateCertification : Json → Option Certification
  | .obj fs => do
      let name ← reqField fs "name" jStr?
      let issuing_organization ← reqField fs "issuing_organization" jStr?
      let issue_year ← reqField fs "issue_year" jInt?
      let expiration_year ← optField fs "expiration_year" jYearP?
      let credential_id ← optField fs "credential_id" jStr?
      let credential_url ← optField fs "credential_url" jUrl?
      pure ⟨name, issuing_organization, issue_year, expiration_year,
            credential_id, credential_url⟩
  | _ => none

def validatePosition : Json → Option PositionOfResponsibility
  | .obj fs => do
      let title ← reqField fs "title" jStr?
      let organization ← reqField fs "organization" jStr?
      let start_year ← reqField fs "start_year" jInt?
      let end_year ← reqField fs "end_year" jYearP?
      let description_points ← reqField fs "description_points" (jList? jStr?)
      pure ⟨title, organization, start_year, end_year, description_points⟩
  | _ => none

/-- `Resume.model_validate_json` (the resume oracle's output contract):
`name`, `email` and `education` are required, the other sections default. -/
def validateResume : Json → Option Resume
  | .obj fs => do
      let name ← reqField fs "name" jStr?
      let email ← reqField fs "email" jStr?
      let phone ← optField fs "phone" jStr?
      let social_links ← listField fs "social_links" jUrl?
      let courses ← listField fs "courses" jStr?
      let education ← reqField fs "education" (jList? validateEducation)
      let experience ← listField fs "experience" validateExperience
      let projects ← listField fs "projects" validateProject
      let skills ← listField fs "skills" validateSkillCategory
      let certifications ← listField fs "certifications" validateCertification
      let achievements ← listField fs "achievements" jStr?
      let positions_of_responsibility ← listField fs "positions_of_responsibility" validatePosition
      pure ⟨name, email, phone, social_links, courses, education, experience,
            projects, skills, certifications, achievements,
            positions_of_responsibility⟩
  | _ => none

end Res

/-! ### `src/services/linkedin_profile_scraper/linkedin_schema.py`

The per-source intermediate `LinkedInProfile` record, namespaced `LIn`
(`Grade` is again byte-identical to the aggregator schema's and reused). -/

namespace LIn

structure ContactInfo where
  email : Option String
  phone : Option String
  address : Option String
  profile_url : Option String
  other_links : List String
deriving DecidableEq, Repr

structure Position where
  title : String
  company : String
  location : Option String
  start_year : Int
  end_year : YearOrPresent
  start_month : Option Int
  end_month : Option Int
  description_points : List String
deriving DecidableEq, Repr

structure EducationEntry where
  institute : String
  degree : Option String
  field_of_study : Option String
  start_year : Option Int
  end_year : Option YearOrPresent
  grade_info : Option Grade
deriving DecidableEq, Repr

structure Project where
  name : String
  description_points : List String
  link : Option String
deriving DecidableEq, Repr

structure Certification where
  name : String
  issuing_organization : Option String
  issue_year : Option Int
  expiration_year : Option YearOrPresent
  credential_id : Option String
  credential_url : Option String
deriving DecidableEq, Repr

structure VolunteerEntry where
  role : String
  organization : String
  start_year : Int
  end_year : YearOrPresent
  description_points : List String
deriving DecidableEq, Repr

structure Publication where
  title : String
  publisher : Option String
  publish_year : Option Int
  url : Option String
deriving DecidableEq, Repr

structure LinkedInProfile where
  name : String
  headline : Option String
  location : Option String
  contact : ContactInfo
  about : Option String
  top_skills : List String
  honors_awards : List String
  certifications : List Certification
  experience : List Position
  education : List EducationEntry
  projects : List Project
  publications : List Publication
  volunteer_experience : List VolunteerEntry
  courses : List String
  languages : List String
  recommendations_count : Option Int
deriving DecidableEq, Repr

def validateContact : Json → Option ContactInfo
  | .obj fs => do
      let email ← optField fs "email" jStr?
      let phone ← optField fs "phone" jStr?
      let address ← optField fs "address" jStr?
      let profile_url ← optField fs "profile_url" jUrl?
      let other_links ← listField fs "other_links" jUrl?
      pure ⟨email, phone, address, profile_url, other_links⟩
  | _ => none

def validatePosition : Json → Option Position
  | .obj fs => do
      let title ← reqField fs "title" jStr?
      let company ← reqField fs "company" jStr?
      let location ← optField fs "location" jStr?
      let start_year ← reqField fs "start_year" jInt?
      let end_year ← reqField fs "end_year" jYearP?
      let start_month ← optField fs "start_month" jInt?
      let end_month ← optField fs "end_month" jInt?
      let description_points ← listField fs "description_points" jStr?
      pure ⟨title, company, location, start_year, end_year, start_month,
            end_month, description_points⟩
  | _ => none

def validateEducationEntry : Json → Option EducationEntry
  | .obj fs => do
      let institute ← reqField fs "institute" jStr?
      let degree ← optField fs "degree" jStr?
      let field_of_study ← optField fs "field_of_study" jStr?
      let start_year ← optField fs "start_year" jInt?
      let end_year ← optField fs "end_year" jYearP?
      let grade_info ← optField fs "grade_info" validateGrade
      pure ⟨institute, degree, field_of_study, start_year, end_year, grade_info⟩
  | _ => none

def validateProject : Json → Option Project
  | .obj fs => do
      let name ← reqField fs "name" jStr?
      let description_points ← listField fs "description_points" jStr?
      let link ← optField fs "link" jUrl?
      pure ⟨name, description_points, link⟩
  | _ => none

def validateCertification : Json → Option Certification
  | .obj fs => do
      let name ← reqField fs "name" jStr?
      let issuing_organization ← optField fs "issuing_organization" jStr?
      let issue_year ← optField fs "issue_year" jInt?
      let expiration_year ← optField fs "expiration_year" jYearP?
      let credential_id ← optField fs "credential_id" jStr?
      let credential_url ← optField fs "credential_url" jUrl?
      pure ⟨name, issuing_organization, issue_year, expiration_year,
            credential_id, credential_url⟩
  | _ => none

def validateVolunteer : Json → Option VolunteerEntry
  | .obj fs => do
      let role ← reqField fs "role" jStr?
      let organization ← reqField fs "organization" jStr?
      let start_year ← reqField fs "start_year" jInt?
      let end_year ← reqField fs "end_year" jYearP?
      let description_points ← listField fs "description_points" jStr?
      pure ⟨role, organization, start_year, end_year, description_points⟩
  | _ => none

def validatePublication : Json → Option Publication
  | .obj fs => do
      let title ← reqField fs "title" jStr?
      let publisher ← optField fs "publisher" jStr?
      let publish_year ← optField fs "publish_year" jInt?
      let url ← optField fs "url" jUrl?
      pure ⟨title, publisher, publish_year, url⟩
  | _ => none

/-- `LinkedInProfile.model_validate_json`: only `name` is required; `contact`
defaults to an empty `ContactInfo()`. -/
def validateLinkedIn : Json → Option LinkedInProfile
  | .obj fs => do
      let name ← reqField fs "name" jStr?
      let headline ← optField fs "headline" jStr?
      let location ← optField fs "location" jStr?
      let contact ← fieldD fs "contact" validateContact ⟨none, none, none, none, []⟩
      let about ← optField fs "about" jStr?
      let top_skills ← listField fs "top_skills" jStr?
      let honors_awards ← listField fs "honors_awards" jStr?
      let certifications ← listField fs "certifications" validateCertification
      let experience ← listField fs "experience" validatePosition
      let education ← listField fs "education" validateEducationEntry
      let projects ← listField fs "projects" validateProject
      let publications ← listField fs "publications" validatePublication
      let volunteer_experience ← listField fs "volunteer_experience" validateVolunteer
      let courses ← listField fs "courses" jStr?
      let languages ← listField fs "languages" jStr?
      let recommendations_count ← optField fs "recommendations_count" jInt?
      pure ⟨name, headline, location, contact, about, top_skills, honors_awards,
            certifications, experience, education, projects, publications,
            volunteer_experience, courses, languages, recommendations_count⟩
  | _ => none

end LIn

/-! ### `src/services/github_scraper/github_scraper.py`

`parse_github_profile` maps a user's GitHub API data onto the resume schema's
`Project` / `SkillCategory`.  The two REST responses the function reads
(`/users/{username}` and `repos_url?per_page=100`, plus each repository's
`languages_url` byte histogram) are inputs of the embedded function: `none`
models `_fetch_github_data` returning `None` (request failed / user absent). -/

/-- The `/users/{username}` response fields the adapter reads. -/
structure GhUser where
  html_url : Option String
  repos_url : Option String
deriving DecidableEq, Repr

/-- One element of the repository-list response, with the fields the adapter
reads; `langResp` is the response to fetching this repo's `languages_url`
(language name ↦ byte count, in JSON object order). -/
structure GhRepo where
  name : Option String
  fork : Bool
  description : Option String
  html_url : Option String
  languages_url : Option String
  langResp : Option (List (String × Nat))
deriving DecidableEq, Repr

/-- All GitHub API data for one username: the user document and the user's
full repository list as stored on the server (the adapter's single
`?per_page=100` request receives at most the first 100 of them). -/
structure GhFetch where
  user : Option GhUser
  repos : Option (List GhRepo)
deriving DecidableEq, Repr

/-- The structured content of the adapter's output (the code serializes this
triple to `final_json` on the success path and returns bare empty lists on the
early-exit paths; the aggregator only embeds it into the oracle prompt). -/
structure GithubOutput where
  projects : List Res.Project
  skills : List Res.SkillCategory
  social_links : List String
deriving DecidableEq, Repr

/-- `language_bytes[lang] += byte_count` on a `defaultdict(int)`: Python dicts
preserve first-insertion order of keys, modelled by an association list. -/
def addLang : List (String × Nat) → String → Nat → List (String × Nat)
  | [], k, v => [(k, v)]
  | (k', v') :: rest, k, v =>
      if k' = k then (k', v' + v) :: rest else (k', v') :: addLang rest k v

/-- Python truthiness of an optional string (`if repos_url:` etc.): present
and nonempty. -/
def truthyStr : Option String → Bool
  | some s => s != ""
  | none => false

/-- Steps 2–3 of the repo loop for one repository: accumulate its language
byte counts when it has a truthy `languages_url` and the fetch succeeded. -/
def accLangs (acc : List (String × Nat)) (r : GhRepo) : List (String × Nat) :=
  if truthyStr r.languages_url then
    match r.langResp with
    | some ls => ls.foldl (fun m kv => addLang m kv.1 kv.2) acc
    | none => acc
  else acc

/-- `Project(name=repo.get('name', 'N/A'), description_points=desc_points,
link=AnyUrl(repo.get('html_url', '')))` with `link` already validated. -/
def mkProject (r : GhRepo) (link : String) : Res.Project :=
  ⟨r.name.getD "N/A",
   (match r.description with | some d => if d = "" then [] else [d] | none => []),
   link⟩

/-- The `for repo in repos_data` loop: forks are skipped; a repo whose
`Project` fails pydantic validation (its `html_url`, defaulted to `""`, is not
a valid URL) is skipped by the `except ValidationError: continue`, which also
skips its language accumulation; otherwise one `Project` is appended and the
repo's languages are accumulated. -/
def processRepos (acc : List (String × Nat)) :
    List GhRepo → List Res.Project × List (String × Nat)
  | [] => ([], acc)
  | r :: rs =>
      if r.fork then processRepos acc rs
      else
        match parseUrl (r.html_url.getD "") with
        | none => processRepos acc rs
        | some link =>
            let out := processRepos (accLangs acc r) rs
            (mkProject r link :: out.1, out.2)

/-- The ordering used by
`sorted(language_bytes.items(), key=lambda item: item[1], reverse=True)`:
byte count descending.  Python's `sorted` is a stable sort (ties keep list
order, which here is first-insertion order); `List.insertionSort` is likewise
stable, and any two stable sorts of the same total preorder agree. -/
def byteGe (a b : String × Nat) : Prop := b.2 ≤ a.2

instance : DecidableRel byteGe := fun a b => Nat.decLe b.2 a.2

instance : IsTotal (String × Nat) byteGe :=
  ⟨fun a b => Nat.le_total b.2 a.2⟩

instance : IsTrans (String × Nat) byteGe :=
  ⟨fun _ _ _ h1 h2 => Nat.le_trans h2 h1⟩

/-- Step 4: the ranked language list. -/
def rankedLanguages (langs : List (String × Nat)) : List (String × Nat) :=
  List.insertionSort byteGe langs

/-- `parse_github_profile(username)` as a function of the API responses. -/
def parse_github_profile (gh : GhFetch) : GithubOutput :=
  match gh.user with
  | none => ⟨[], [], []⟩
  | some u =>
      let social_links : List String :=
        match u.html_url with
        | some s => (match parseUrl s with | some l => [l] | none => [])
        | none => []
      match u.repos_url with
      | none => ⟨[], [], social_links⟩
      | some ru =>
          if ru = "" then ⟨[], [], social_links⟩
          else
            match gh.repos with
            | none => ⟨[], [], social_links⟩
            | some rs =>
                let repos_data := rs.take 100
                if repos_data = [] then ⟨[], [], social_links⟩
                else
                  let out := processRepos [] repos_data
                  let skills : List Res.SkillCategory :=
                    if out.2 = [] then []
                    else [⟨"Programming Languages (from GitHub)",
                           (rankedLanguages out.2).map Prod.fst⟩]
                  ⟨out.1, skills, social_links⟩

/-! ### The PDF adapters and the aggregation engine
(`src/services/resume_parser/resume_parser.py`,
`src/services/linkedin_profile_scraper/linkedin_scraper.py`,
`src/app/aggregator.py`) -/

/-- One page of a parsed PDF as `fitz` yields it: stripped page text and the
page's URI links. -/
structure PdfPage where
  text : String
  links : List String
deriving DecidableEq, Repr

/-- A PDF as `fitz.open` delivers it.  An adapter input of `none` models an
absent upload (Python `None`): `fitz.open(stream=None, filetype="pdf")` does
not raise — a falsy stream means "no stream supplied", and the constructor
creates a new empty document, so extraction yields empty text. -/
abbrev Pdf := List PdfPage

/-- `extract_text_and_links_from_pdf` (identical in both PDF adapters): join
the nonempty page texts, and sort the deduplicated set of link URIs. -/
def extract_text_and_links_from_pdf (doc : Pdf) : String × List String :=
  (String.intercalate "\n" ((doc.map PdfPage.text).filter (fun t => t ≠ "")),
   List.insertionSort (· ≤ ·) (doc.flatMap PdfPage.links).dedup)

/-- The uncaught Python exceptions that can escape `parse_all` in this model
(unreadable PDF bytes, which would surface as `HTTPException`, are outside
the model: inputs are already-parsed documents or absent). -/
inductive AggError where
  /-- pydantic `ValidationError` from `Resume.model_validate_json`. -/
  | resumeSchemaError
  /-- pydantic `ValidationError` from `LinkedInProfile.model_validate_json`. -/
  | linkedinSchemaError
  /-- pydantic `ValidationError` from
  `AggregatedProfile.model_validate_json(resp)` in `parse_all`. -/
  | schemaViolation
deriving DecidableEq, Repr

/-- `parse_resume(file_path, client)` as a function of the LLM response
`resp`.  An absent upload is not an error: `fitz.open(stream=None)` creates
an empty document, extraction yields empty text and links, and the adapter
still prompts the LLM; its response is then validated against `Resume` (the
returned record is what the caller serializes into the merge prompt). -/
def parse_resume (file : Option Pdf) (resp : Json) : Except AggError Res.Resume :=
  let doc : Pdf := match file with | none => [] | some d => d
  let _prompt_input := extract_text_and_links_from_pdf doc
  match Res.validateResume resp with
  | none => .error .resumeSchemaError
  | some r => .ok r

/-- `parse_linkedin(file_bytes, client)` as a function of the LLM response;
an absent upload likewise proceeds with an empty document. -/
def parse_linkedin (file : Option Pdf) (resp : Json) : Except AggError LIn.LinkedInProfile :=
  let doc : Pdf := match file with | none => [] | some d => d
  let _prompt_input := extract_text_and_links_from_pdf doc
  match LIn.validateLinkedIn resp with
  | none => .error .linkedinSchemaError
  | some r => .ok r

/-- The three LLM responses consumed during one `parse_all` run (the two
per-source extraction calls and the single merge-oracle call). -/
structure Oracles where
  resumeResp : Json
  linkedinResp : Json
  aggResp : Json

/-- `parse_all(resume, linkedin, github_name)`: run the three source
adapters in order (each's LLM/API traffic supplied as parameters), build the
merge prompt from their outputs, validate the merge oracle's response against
`AggregatedProfile = FinalSchema`, and return `to_serializable` of the
validated object.  There is no post-processing between validation and
return. -/
def parse_all (resume linkedin : Option Pdf) (gh : GhFetch) (o : Oracles) :
    Except AggError Json :=
  match parse_resume resume o.resumeResp with
  | .error e => .error e
  | .ok _resume_json =>
      match parse_linkedin linkedin o.linkedinResp with
      | .error e => .error e
      | .ok _linkedin_json =>
          let _github_json := parse_github_profile gh
          match validateFinal o.aggResp with
          | none => .error .schemaViolation
          | some validated_output => .ok (serializeFinal validated_output)

/-! ### Observation helpers for stating properties of the returned document -/

/-- The `data_sources` value of a returned profile document, as strings. -/
def dataSourcesOf (j : Json) : Option (List String) :=
  match j with
  | .obj fs =>
      match getField fs "data_sources" with
      | some (.arr xs) => decList jStr? xs
      | _ => none
  | _ => none

/-- The per-project `source` lists of a returned profile document. -/
def projectSourcesOf (j : Json) : Option (List (List String)) :=
  match j with
  | .obj fs =>
      match getField fs "projects" with
      | some (.arr ps) => decList (fun pj =>
          match pj with
          | .obj pfs =>
              match getField pfs "source" with
              | some (.arr ss) => decList jStr? ss
              | _ => none
          | _ => none) ps
      | _ => none
  | _ => none

/-- String form of a `source` tag, as it appears in serialized output. -/
def srcName : RLGSource → String
  | .resume => "resume"
  | .linkedin => "linkedin"
  | .github => "github"

/-! ### Validity of an in-memory profile object

A `FinalSchema` value is *valid* when every `AnyUrl`/`EmailStr`-typed field
holds a value in validated (normalised) form — exactly the objects pydantic
validation can produce, since `AnyUrl`/`EmailStr` store normalised strings. -/

def validOptUrl : Option String → Bool
  | none => true
  | some u => parseUrl u == some u

def validOptEmail : Option String → Bool
  | none => true
  | some e => normEmail e == some e

def socialValid (s : SocialLinks) : Bool :=
  validOptUrl s.linkedin && validOptUrl s.github && validOptUrl s.portfolio &&
    s.other_links.all (fun u => parseUrl u == some u)

def projectValid (p : UnifiedProject) : Bool := validOptUrl p.link

def certValid (c : UnifiedCertification) : Bool := validOptUrl c.credential_url

/-- All URL- and email-typed fields of the profile are in validated form. -/
def finalValid (p : FinalSchema) : Bool :=
  validOptEmail p.contact_info.email && socialValid p.social_links &&
    p.projects.all projectValid && p.certifications.all certValid

/-! ### Concrete runs used by counterexamples and witnesses -/

/-- A readable one-page PDF (an uploaded resume or LinkedIn export). -/
def samplePdf : Pdf := [⟨"Ada Lovelace. Analyst.", ["https://example.com/ada"]⟩]

/-- A resume-extractor LLM response that validates against `Resume`. -/
def resumeRespOk : Json :=
  .obj [("name", .str "Ada"), ("email", .str "ada@example.com"),
        ("education", .arr [])]

/-- The `Resume` record `resumeRespOk` validates to. -/
def cResume1 : Res.Resume :=
  ⟨"Ada", "ada@example.com", none, [], [], [], [], [], [], [], [], []⟩

/-- A LinkedIn-extractor LLM response that validates against
`LinkedInProfile`. -/
def linkedinRespOk : Json := .obj [("name", .str "Ada")]

/-- The `LinkedInProfile` record `linkedinRespOk` validates to. -/
def cLinkedIn1 : LIn.LinkedInProfile :=
  ⟨"Ada", none, none, ⟨none, none, none, none, []⟩, none, [], [], [], [], [],
   [], [], [], [], [], none⟩

def ghUserOk : GhUser :=
  ⟨some "https://github.com/ada", some "https://api.github.com/users/ada/repos"⟩

/-- A non-fork repository with one language. -/
def ghRepoOk : GhRepo :=
  ⟨some "tool", false, some "a tool", some "https://github.com/ada/tool",
   some "https://api.github.com/repos/ada/tool/languages", some [("Python", 10)]⟩

/-- GitHub data for a user whose fetch succeeds and contributes a project. -/
def ghFetchFull : GhFetch := ⟨some ghUserOk, some [ghRepoOk]⟩

/-- GitHub wholly unavailable (no username / fetch failed): the adapter's
user-profile request returns `None`. -/
def ghFetchAbsent : GhFetch := ⟨none, none⟩

/-- A merge-oracle response that is schema-valid but claims
`data_sources = ["github"]` only. -/
def aggRespGithubOnly : Json :=
  .obj [("contact_info", .obj [("name", .str "Ada")]),
        ("social_links", .obj []),
        ("data_sources", .arr [.str "github"])]

/-- The profile `aggRespGithubOnly` validates to. -/
def cProfileGithubOnly : FinalSchema :=
  ⟨⟨"Ada", none, none, none, none, none⟩, ⟨none, none, none, []⟩,
   [], [], [], [], [], [], [], [], [.github], none⟩

/-- A merge-oracle response missing the required `contact_info.name`. -/
def aggRespNoName : Json :=
  .obj [("contact_info", .obj []), ("social_links", .obj [])]

/-- A profile document that is fully well-shaped except that the value of the
URL-typed `social_links.linkedin` field is left as a parameter. -/
def docWithLinkedinUrl (u : Json) : Json :=
  .obj [("contact_info", .obj [("name", .str "Ada")]),
        ("social_links", .obj [("linkedin", u)])]

/-- The profile `docWithLinkedinUrl .null` validates to. -/
def cProfileNoLinks : FinalSchema :=
  ⟨⟨"Ada", none, none, none, none, none⟩, ⟨none, none, none, []⟩,
   [], [], [], [], [], [], [], [], [], none⟩

/-- The minimal profile document: a name and the required (but contentless)
outer shape, everything else absent. -/
def minProfileDoc : Json :=
  .obj [("contact_info", .obj [("name", .str "Grace")]),
        ("social_links", .obj [])]

/-- The profile `minProfileDoc` validates to: all collections empty. -/
def cProfileMin : FinalSchema :=
  ⟨⟨"Grace", none, none, none, none, none⟩, ⟨none, none, none, []⟩,
   [], [], [], [], [], [], [], [], [], none⟩

/-- A maximally populated profile document: every field of every sub-model
present, including a float grade, `"Present"` end years and all three
sources. -/
def maxProfileDoc : Json :=
  .obj [("contact_info", .obj
          [("name", .str "Grace Hopper"), ("email", .str "grace@example.org"),
           ("phone", .str "+1 555 0100"), ("location", .str "Arlington, VA"),
           ("headline", .str "Rear Admiral"), ("summary", .str "Compiler pioneer.")]),
        ("social_links", .obj
          [("linkedin", .str "https://linkedin.com/in/grace"),
           ("github", .str "https://github.com/grace"),
           ("portfolio", .str "https://grace.dev"),
           ("other_links", .arr [.str "https://navy.mil/grace"])]),
        ("education", .arr [.obj
          [("institute", .str "Yale"), ("degree", .str "PhD"),
           ("field_of_study", .str "Mathematics"),
           ("start_year", .num (.i 1930)), ("end_year", .str "Present"),
           ("start_date_raw", .str "Fall 1930"), ("end_date_raw", .str "n/a"),
           ("grade_info", .obj
             [("value", .num (.f (19 / 2))), ("type", .str "CGPA"),
              ("scale", .num (.i 10)), ("description", .str "top of class")]),
           ("description", .str "Thesis on algebra"),
           ("source", .arr [.str "resume", .str "linkedin"])]]),
        ("experience", .arr [.obj
          [("company", .str "US Navy"), ("title", .str "Admiral"),
           ("start_year", .num (.i 1943)), ("end_year", .num (.i 1986)),
           ("start_date_raw", .str "Dec 1943"), ("end_date_raw", .str "Aug 1986"),
           ("duration_raw", .str "42 years"), ("location", .str "USA"),
           ("description_points", .arr [.str "Led COBOL"]),
           ("source", .arr [.str "resume", .str "linkedin"])]]),
        ("projects", .arr [.obj
          [("name", .str "UNIVAC"),
           ("description_points", .arr [.str "First compiler"]),
           ("link", .str "https://github.com/grace/univac"),
           ("start_date_raw", .str "1951"), ("end_date_raw", .str "1952"),
           ("associated_with", .str "Remington Rand"),
           ("technologies", .arr [.str "A-0"]),
           ("github_stars", .num (.i 5)), ("github_forks", .num (.i 2)),
           ("is_github_repo", .bool true),
           ("source", .arr [.str "resume", .str "linkedin", .str "github"])]]),
        ("skills", .arr [.obj
          [("category_name", .str "Languages"),
           ("skills", .arr [.str "COBOL", .str "FLOW-MATIC"]),
           ("source", .arr [.str "resume", .str "github"])]]),
        ("certifications", .arr [.obj
          [("name", .str "Legion of Merit"),
           ("issuing_organization", .str "US DoD"),
           ("issue_year", .num (.i 1973)), ("expiration_year", .str "Present"),
           ("issue_date_raw", .str "1973"), ("expiration_date_raw", .str "never"),
           ("credential_id", .str "LM-1"),
           ("credential_url", .str "https://awards.mil/lm1"),
           ("source", .arr [.str "resume"])]]),
        ("achievements", .arr [.str "Grace Hopper Celebration namesake"]),
        ("positions_of_responsibility", .arr [.obj
          [("title", .str "Director"), ("organization", .str "Navy Programming Languages Group"),
           ("start_year", .num (.i 1967)), ("end_year", .str "Present"),
           ("start_date_raw", .str "1967"), ("end_date_raw", .str "n/a"),
           ("description_points", .arr [.str "Standardised COBOL"]),
           ("source", .arr [.str "linkedin"])]]),
        ("courses", .arr [.str "Numerical Analysis"]),
        ("data_sources", .arr [.str "resume", .str "linkedin", .str "github"]),
        ("last_updated", .str "2026-01-01T00:00:00Z")]

/-- A merge-oracle response whose entities carry `source` lists that are
duplicated (`["github","github"]`) and empty, while claiming resume+linkedin
as `data_sources`. -/
def aggRespBadSources : Json :=
  .obj [("contact_info", .obj [("name", .str "Ada")]),
        ("social_links", .obj []),
        ("projects", .arr
          [.obj [("name", .str "p"),
                 ("source", .arr [.str "github", .str "github"])],
           .obj [("name", .str "q"), ("source", .arr [])]]),
        ("data_sources", .arr [.str "resume", .str "linkedin"])]

/-- The profile `aggRespBadSources` validates to. -/
def cProfileBadSources : FinalSchema :=
  ⟨⟨"Ada", none, none, none, none, none⟩, ⟨none, none, none, []⟩,
   [], [],
   [⟨"p", [], none, none, none, none, [], none, none, false, [.github, .github]⟩,
    ⟨"q", [], none, none, none, none, [], none, none, false, []⟩],
   [], [], [], [], [], [.resume, .linkedin], none⟩

/-- A non-fork repository whose API record has no `html_url`: pydantic
`Project` validation fails on `AnyUrl('')` and the repo is skipped. -/
def ghRepoNoUrl : GhRepo := ⟨some "ghost", false, none, none, none, none⟩

def ghFetchNoUrl : GhFetch := ⟨some ghUserOk, some [ghRepoNoUrl]⟩

/-- A plain non-fork or fork repository named `nm`. -/
def mkRepoN (nm : String) (fork : Bool) : GhRepo :=
  ⟨some nm, fork, none, some ("https://github.com/ada/" ++ nm), none, none⟩

/-- A user's repository list with 5 non-fork repositories and 2 forks. -/
def ghSeven : List GhRepo :=
  [mkRepoN "a" false, mkRepoN "b" false, mkRepoN "c" true, mkRepoN "d" false,
   mkRepoN "e" false, mkRepoN "f" true, mkRepoN "g" false]

/-- A repository whose language histogram has two languages tied at 5 bytes,
first encountered in the order `b`, then `a`. -/
def ghRepoTie : GhRepo :=
  ⟨some "tie", false, none, some "https://github.com/ada/tie",
   some "https://api.github.com/repos/ada/tie/languages",
   some [("b", 5), ("a", 5)]⟩

def ghFetchTie : GhFetch := ⟨some ghUserOk, some [ghRepoTie]⟩

/-- A richly populated valid in-memory profile (used to witness the
round-trip theorem). -/
def cProfile9 : FinalSchema :=
  ⟨⟨"Ada", some "ada@example.com", some "+44 20 0000", some "London",
    some "Analyst", some "First programmer."⟩,
   ⟨some "https://linkedin.com/in/ada", some "https://github.com/ada", none,
    ["https://example.com/ada"]⟩,
   [⟨"London U", some "BSc", some "Maths", some 1833, some .present,
     some "1833", none, some ⟨.f (7 / 2), .GPA, .i 4, none⟩, some "notes",
     [.resume, .linkedin]⟩],
   [⟨"Analytical Engines Ltd", "Programmer", some 1842, some (.year 1843),
     none, none, some "1 year", some "London", ["Wrote Note G"], [.resume]⟩],
   [⟨"note-g", ["First published algorithm"], some "https://github.com/ada/note-g",
     none, none, some "Babbage", ["Bernoulli"], some 3, some 1, true,
     [.resume, .github]⟩],
   [⟨"Mathematics", ["calculus"], [.resume, .linkedin]⟩],
   [⟨"Fellowship", some "Royal Society", some 1843, some .present, none, none,
     some "RS-1", some "https://royalsociety.org/ada", [.linkedin]⟩],
   ["First algorithm"],
   [⟨"Patron", "Science Museum", some 1840, some (.year 1845), none, none,
     ["Sponsored exhibits"], [.resume]⟩],
   ["Astronomy"],
   [.resume, .linkedin, .github],
   some "2026-01-01T00:00:00Z"⟩

/-! ## Helper lemmas -/

theorem decList_map {α : Type} {dec : Json → Option α} {ser : α → Json}
    (l : List α) (h : ∀ a ∈ l, dec (ser a) = some a) :
    decList dec (l.map ser) = some l := by
  induction l with
  | nil => rfl
  | cons a l ih =>
      simp only [List.map_cons, decList]
      rw [h a (by simp)]
      rw [ih (fun b hb => h b (by simp [hb]))]
      rfl

theorem jSrc2?_serSrc2 (s : RLSource) : jSrc2? (serSrc2 s) = some s := by
  cases s <;> rfl

theorem jSrc3?_serSrc3 (s : RLGSource) : jSrc3? (serSrc3 s) = some s := by
  cases s <;> rfl

theorem jStr?_serSrc3 (s : RLGSource) : jStr? (serSrc3 s) = some (srcName s) := by
  cases s <;> rfl

theorem rtOptStr (v : Option String) :
    decodeOptVal jStr? (serOpt serStr v) = some v := by cases v <;> rfl

theorem rtOptInt (v : Option Int) :
    decodeOptVal jInt? (serOpt serInt v) = some v := by cases v <;> rfl

theorem rtOptYearP (v : Option YearOrPresent) :
    decodeOptVal jYearP? (serOpt serYearP v) = some v := by
  cases v with
  | none => rfl
  | some y => cases y <;> rfl

theorem rtOptUrl (v : Option String) (h : validOptUrl v = true) :
    decodeOptVal jUrl? (serOpt serStr v) = some v := by
  cases v with
  | none => rfl
  | some u =>
      have hu : parseUrl u = some u := by
        simpa [validOptUrl] using h
      simp [decodeOptVal, serOpt, serStr, jUrl?, hu]

theorem rtOptEmail (v : Option String) (h : validOptEmail v = true) :
    decodeOptVal jEmail? (serOpt serStr v) = some v := by
  cases v with
  | none => rfl
  | some e =>
      have he : normEmail e = some e := by
        simpa [validOptEmail] using h
      simp [decodeOptVal, serOpt, serStr, jEmail?, he]

theorem validateGrade_rt (g : Grade) : validateGrade (serializeGrade g) = some g := by
  obtain ⟨v, t, sc, d⟩ := g
  cases t <;> cases d <;> rfl

theorem rtOptGrade (v : Option Grade) :
    decodeOptVal validateGrade (serOpt serializeGrade v) = some v := by
  cases v with
  | none => rfl
  | some g =>
      obtain ⟨val, t, sc, d⟩ := g
      cases t <;> cases d <;> rfl

theorem decList_serStr (l : List String) : decList jStr? (l.map serStr) = some l :=
  decList_map l (fun _ _ => rfl)

theorem decList_serSrc2 (l : List RLSource) : decList jSrc2? (l.map serSrc2) = some l :=
  decList_map l (fun a _ => jSrc2?_serSrc2 a)

theorem decList_serSrc3 (l : List RLGSource) : decList jSrc3? (l.map serSrc3) = some l :=
  decList_map l (fun a _ => jSrc3?_serSrc3 a)

theorem validateContactInfo_rt (c : ContactInfo) (h : validOptEmail c.email = true) :
    validateContactInfo (serializeContactInfo c) = some c := by
  obtain ⟨n, em, ph, lo, he, su⟩ := c
  have h1 := rtOptEmail em h
  simp [serializeContactInfo, validateContactInfo, reqField, optField, getField,
    jStr?, serStr, rtOptStr, h1]

theorem validateSocialLinks_rt (s : SocialLinks) (h : socialValid s = true) :
    validateSocialLinks (serializeSocialLinks s) = some s := by
  obtain ⟨li, gh, po, ol⟩ := s
  simp only [socialValid, Bool.and_eq_true, List.all_eq_true] at h
  obtain ⟨⟨⟨hli, hgh⟩, hpo⟩, hol⟩ := h
  have h4 : decList jUrl? (ol.map serStr) = some ol :=
    decList_map ol (fun a ha => by
      have := hol a ha
      simp only [beq_iff_eq] at this
      simpa [jUrl?, serStr] using this)
  simp [serializeSocialLinks, validateSocialLinks, optField, listField, getField,
    rtOptUrl _ hli, rtOptUrl _ hgh, rtOptUrl _ hpo, h4]

theorem validateEducation_rt (e : UnifiedEducation) :
    validateEducation (serializeEducation e) = some e := by
  obtain ⟨i, d, f, sy, ey, sdr, edr, gi, de, src⟩ := e
  simp [serializeEducation, validateEducation, reqField, optField, listField,
    getField, jStr?, serStr, rtOptStr, rtOptInt, rtOptYearP, rtOptGrade,
    decList_serSrc2]

theorem validateExperience_rt (e : UnifiedExperience) :
    validateExperience (serializeExperience e) = some e := by
  obtain ⟨c, t, sy, ey, sdr, edr, dr, lo, dp, src⟩ := e
  simp [serializeExperience, validateExperience, reqField, optField, listField,
    getField, jStr?, serStr, rtOptStr, rtOptInt, rtOptYearP, decList_serStr,
    decList_serSrc2]

theorem validateProject_rt (p : UnifiedProject) (h : projectValid p = true) :
    validateProject (serializeProject p) = some p := by
  obtain ⟨n, dp, li, sdr, edr, aw, te, st, fo, ig, src⟩ := p
  have h1 := rtOptUrl li h
  simp [serializeProject, validateProject, reqField, optField, listField,
    boolField, getField, jStr?, jBool?, serStr, rtOptStr, rtOptInt,
    decList_serStr, decList_serSrc3, h1]

theorem validateSkillCategory_rt (s : SkillCategory) :
    validateSkillCategory (serializeSkillCategory s) = some s := by
  obtain ⟨cn, sk, src⟩ := s
  simp [serializeSkillCategory, validateSkillCategory, reqField, listField,
    getField, jStr?, serStr, decList_serStr, decList_serSrc3]

theorem validateCertification_rt (c : UnifiedCertification)
    (h : certValid c = true) :
    validateCertification (serializeCertification c) = some c := by
  obtain ⟨n, io, iy, ey, idr, edr, ci, cu, src⟩ := c
  have h1 := rtOptUrl cu h
  simp [serializeCertification, validateCertification, reqField, optField,
    listField, getField, jStr?, serStr, rtOptStr, rtOptInt, rtOptYearP,
    decList_serSrc2, h1]

theorem validatePosition_rt (p : PositionOfResponsibility) :
    validatePosition (serializePosition p) = some p := by
  obtain ⟨t, o, sy, ey, sdr, edr, dp, src⟩ := p
  simp [serializePosition, validatePosition, reqField, optField, listField,
    getField, jStr?, serStr, rtOptStr, rtOptInt, rtOptYearP, decList_serStr,
    decList_serSrc2]

theorem decList_str_serSrc3 (l : List RLGSource) :
    decList jStr? (l.map serSrc3) = some (l.map srcName) := by
  induction l with
  | nil => rfl
  | cons a l ih => simp [decList, List.map_cons, jStr?_serSrc3, ih]

/-- The serialized profile's `data_sources` entry is exactly the validated
object's `data_sources` list, rendered as strings. -/
theorem dataSourcesOf_serializeFinal (p : FinalSchema) :
    dataSourcesOf (serializeFinal p) = some (p.data_sources.map srcName) := by
  simp [dataSourcesOf, serializeFinal, getField, decList_str_serSrc3]

/-- The serialized profile's per-project `source` lists are exactly the
validated object's, rendered as strings. -/
theorem projectSourcesOf_serializeFinal (p : FinalSchema) :
    projectSourcesOf (serializeFinal p)
      = some (p.projects.map (fun pr => pr.source.map srcName)) := by
  have h : ∀ l : List UnifiedProject,
      decList (fun pj =>
          match pj with
          | .obj pfs =>
              match getField pfs "source" with
              | some (.arr ss) => decList jStr? ss
              | _ => none
          | _ => none) (l.map serializeProject)
        = some (l.map (fun pr => pr.source.map srcName)) := by
    intro l
    induction l with
    | nil => rfl
    | cons a l ih =>
        simp [decList, List.map_cons, serializeProject, getField,
          decList_str_serSrc3, ih]
  simp [projectSourcesOf, serializeFinal, getField, h]

/-- Through the repo loop, one `Project` is produced per repository that is
not a fork and whose `html_url` (defaulted to `""`) passes URL validation. -/
theorem processRepos_fst_length (rs : List GhRepo) (acc : List (String × Nat)) :
    (processRepos acc rs).1.length
      = (rs.filter
          (fun r => !r.fork && (parseUrl (r.html_url.getD "")).isSome)).length := by
  induction rs generalizing acc with
  | nil => rfl
  | cons r rs ih =>
      simp only [processRepos]
      cases hf : r.fork with
      | true => simp [List.filter_cons, hf, ih]
      | false =>
          cases hu : parseUrl (r.html_url.getD "") with
          | none => simp [List.filter_cons, hf, hu, ih]
          | some li => simp [List.filter_cons, hf, hu, ih]

/-! ## Claim theorems -/

/-- C1 (counterexample): in a run where all three sources are supplied and
non-absent — the resume and LinkedIn PDFs are present and their records parse,
and the GitHub adapter produced a project — the engine returns whatever
`data_sources` the oracle claimed (here `["github"]`, which does not even
contain `"resume"`).  So `data_sources` is not recomputed from which inputs
were supplied. -/
theorem c1_counterexample_data_sources_from_oracle :
    (parse_all (some samplePdf) (some samplePdf) ghFetchFull
        ⟨resumeRespOk, linkedinRespOk, aggRespGithubOnly⟩).toOption.bind dataSourcesOf
      = some ["github"]
    ∧ (parse_github_profile ghFetchFull).projects ≠ []
    ∧ "resume" ∉ (["github"] : List String) :=
  ⟨rfl, by decide, by decide⟩

/-- C1 (amended): whenever the three adapter stages succeed and the oracle's
response validates to a profile `P`, `parse_all` returns exactly the
serialization of `P` — in particular its `data_sources` is `P`'s own
`data_sources` list, taken from the oracle's output with no recomputation
from the supplied inputs. -/
theorem c1_data_sources_passthrough
    (resume linkedin : Pdf) (gh : GhFetch) (o : Oracles)
    (r : Res.Resume) (l : LIn.LinkedInProfile) (P : FinalSchema)
    (hr : Res.validateResume o.resumeResp = some r)
    (hl : LIn.validateLinkedIn o.linkedinResp = some l)
    (hv : validateFinal o.aggResp = some P) :
    parse_all (some resume) (some linkedin) gh o = .ok (serializeFinal P)
    ∧ dataSourcesOf (serializeFinal P) = some (P.data_sources.map srcName) := by
  constructor
  · simp only [parse_all, parse_resume, parse_linkedin, hr, hl, hv]
  · exact dataSourcesOf_serializeFinal P

/-- C1 (witness): the amended theorem applied to the concrete run of the
counterexample. -/
theorem c1_data_sources_passthrough_witness :
    parse_all (some samplePdf) (some samplePdf) ghFetchFull
        ⟨resumeRespOk, linkedinRespOk, aggRespGithubOnly⟩
      = .ok (serializeFinal cProfileGithubOnly)
    ∧ dataSourcesOf (serializeFinal cProfileGithubOnly)
      = some (cProfileGithubOnly.data_sources.map srcName) :=
  c1_data_sources_passthrough samplePdf samplePdf ghFetchFull _ cResume1
    cLinkedIn1 cProfileGithubOnly rfl rfl rfl

/-- C2 (counterexample): on the all-absent input (no resume bytes, no
LinkedIn bytes, GitHub unavailable) the engine neither guarantees an empty
profile nor freedom from errors: with validating oracle responses it returns
whatever the merge oracle claims — here `data_sources = ["github"]`, not
`[]` — and with a resume-extractor response that fails `Resume` validation it
raises. -/
theorem c2_counterexample_all_absent_oracle_dependent :
    (parse_all none none ghFetchAbsent
        ⟨resumeRespOk, linkedinRespOk, aggRespGithubOnly⟩).toOption.bind dataSourcesOf
      = some ["github"]
    ∧ some ["github"] ≠ some ([] : List String)
    ∧ parse_all none none ghFetchAbsent ⟨.null, .null, .null⟩
      = .error .resumeSchemaError :=
  ⟨rfl, by decide, rfl⟩

/-- C2 (amended): the engine does not special-case the all-absent input:
`fitz.open(stream=None)` yields an empty document, so all three adapters and
the merge oracle still run, the serialized validated merge-oracle response is
returned whatever its `data_sources` and collections contain, and a
per-source LLM response that fails its schema raises a validation error. -/
theorem c2_all_absent_output_is_oracle_dependent (gh : GhFetch) (o : Oracles) :
    (∀ (r : Res.Resume) (l : LIn.LinkedInProfile) (P : FinalSchema),
        Res.validateResume o.resumeResp = some r →
        LIn.validateLinkedIn o.linkedinResp = some l →
        validateFinal o.aggResp = some P →
        parse_all none none gh o = .ok (serializeFinal P))
    ∧ (Res.validateResume o.resumeResp = none →
        parse_all none none gh o = .error .resumeSchemaError) := by
  constructor
  · intro r l P hr hl hv
    simp only [parse_all, parse_resume, parse_linkedin, hr, hl, hv]
  · intro hbad
    simp only [parse_all, parse_resume, hbad]

/-- C2 (witness): the amended theorem applied at two concrete all-absent
runs — one whose oracle responses validate (a profile is returned) and one
whose resume-extractor response does not (the engine raises). -/
theorem c2_all_absent_output_is_oracle_dependent_witness :
    parse_all none none ghFetchAbsent
        ⟨resumeRespOk, linkedinRespOk, aggRespGithubOnly⟩
      = .ok (serializeFinal cProfileGithubOnly)
    ∧ parse_all none none ghFetchAbsent ⟨.null, linkedinRespOk, aggRespGithubOnly⟩
      = .error .resumeSchemaError :=
  ⟨(c2_all_absent_output_is_oracle_dependent ghFetchAbsent
      ⟨resumeRespOk, linkedinRespOk, aggRespGithubOnly⟩).1 cResume1 cLinkedIn1
      cProfileGithubOnly rfl rfl rfl,
   (c2_all_absent_output_is_oracle_dependent ghFetchAbsent
      ⟨.null, linkedinRespOk, aggRespGithubOnly⟩).2 rfl⟩

/-- C3: every merge-oracle response that fails `FinalSchema` validation (for
example one missing the required `contact_info.name`) is surfaced as a hard
validation error (`pydantic.ValidationError`, uncaught in `parse_all`); the
engine returns no partial or fabricated profile. -/
theorem c3_invalid_oracle_output_is_hard_error
    (resume linkedin : Pdf) (gh : GhFetch) (o : Oracles)
    (r : Res.Resume) (l : LIn.LinkedInProfile)
    (hr : Res.validateResume o.resumeResp = some r)
    (hl : LIn.validateLinkedIn o.linkedinResp = some l)
    (hbad : validateFinal o.aggResp = none) :
    parse_all (some resume) (some linkedin) gh o = .error .schemaViolation := by
  simp only [parse_all, parse_resume, parse_linkedin, hr, hl, hbad]

/-- C3 (witness): an oracle response whose `contact_info` lacks `name` fails
validation, and the concrete run errors. -/
theorem c3_invalid_oracle_output_is_hard_error_witness :
    validateFinal aggRespNoName = none
    ∧ parse_all (some samplePdf) (some samplePdf) ghFetchAbsent
        ⟨resumeRespOk, linkedinRespOk, aggRespNoName⟩ = .error .schemaViolation :=
  ⟨rfl, c3_invalid_oracle_output_is_hard_error samplePdf samplePdf ghFetchAbsent
    _ cResume1 cLinkedIn1 rfl rfl rfl⟩

/-- C4 (counterexample): an oracle output that is fully well-shaped (the same
document with the URL slot empty validates) except for one malformed URL in
`social_links.linkedin` makes the whole validation fail, and the engine
errors instead of dropping the field and returning the profile. -/
theorem c4_counterexample_malformed_url_fails_whole_profile :
    validateFinal (docWithLinkedinUrl .null) = some cProfileNoLinks
    ∧ validateFinal (docWithLinkedinUrl (.str "notaurl")) = none
    ∧ parse_all (some samplePdf) (some samplePdf) ghFetchAbsent
        ⟨resumeRespOk, linkedinRespOk, docWithLinkedinUrl (.str "notaurl")⟩
      = .error .schemaViolation :=
  ⟨rfl, rfl, rfl⟩

/-- C4 (amended): a URL-typed field value that fails URL validation (shown
for `social_links.linkedin`, with arbitrary surrounding content) is not
dropped: it fails validation of the entire document, and the engine surfaces
the hard error and returns no profile.  No post-processing that drops fields
exists. -/
theorem c4_malformed_url_fails_validation
    (resume linkedin : Pdf) (gh : GhFetch) (o : Oracles)
    (r : Res.Resume) (l : LIn.LinkedInProfile)
    (ci : Json) (u : String) (rest : List (String × Json))
    (hr : Res.validateResume o.resumeResp = some r)
    (hl : LIn.validateLinkedIn o.linkedinResp = some l)
    (hu : parseUrl u = none)
    (hdoc : o.aggResp = .obj [("contact_info", ci),
        ("social_links", .obj (("linkedin", .str u) :: rest))]) :
    validateFinal o.aggResp = none
    ∧ parse_all (some resume) (some linkedin) gh o = .error .schemaViolation := by
  have hsl : validateSocialLinks (.obj (("linkedin", .str u) :: rest)) = none := by
    simp [validateSocialLinks, optField, getField, decodeOptVal, jUrl?, hu]
  have hval : validateFinal o.aggResp = none := by
    rw [hdoc]
    simp only [validateFinal, reqField, getField]
    simp [hsl]
  exact ⟨hval, by simp only [parse_all, parse_resume, parse_linkedin, hr, hl, hval]⟩

/-- C4 (witness): the amended theorem at the concrete malformed URL
`"notaurl"`. -/
theorem c4_malformed_url_fails_validation_witness :
    parseUrl "notaurl" = none
    ∧ validateFinal (docWithLinkedinUrl (.str "notaurl")) = none
    ∧ parse_all (some samplePdf) (some samplePdf) ghFetchFull
        ⟨resumeRespOk, linkedinRespOk, docWithLinkedinUrl (.str "notaurl")⟩
      = .error .schemaViolation :=
  ⟨rfl,
   (c4_malformed_url_fails_validation samplePdf samplePdf ghFetchFull
      ⟨resumeRespOk, linkedinRespOk, docWithLinkedinUrl (.str "notaurl")⟩
      cResume1 cLinkedIn1 (.obj [("name", .str "Ada")]) "notaurl" []
      rfl rfl rfl rfl).1,
   (c4_malformed_url_fails_validation samplePdf samplePdf ghFetchFull
      ⟨resumeRespOk, linkedinRespOk, docWithLinkedinUrl (.str "notaurl")⟩
      cResume1 cLinkedIn1 (.obj [("name", .str "Ada")]) "notaurl" []
      rfl rfl rfl rfl).2⟩

/-- C5: the canonical schema validates a minimal profile document — a name
plus the required outer shape (`contact_info`, `social_links` objects) with
every other piece of content absent, yielding the all-empty profile — and a
maximally populated document. -/
theorem c5_schema_validates_minimal_and_maximal :
    validateFinal minProfileDoc = some cProfileMin
    ∧ (validateFinal maxProfileDoc).isSome = true :=
  ⟨rfl, rfl⟩

/-- C6 (counterexample): with only resume and LinkedIn supplied (the GitHub
adapter returned nothing), the engine returns a profile whose first project
has the duplicated source list `["github","github"]` — naming a source that
contributed nothing — and whose second project has an empty source list. -/
theorem c6_counterexample_source_lists_unchecked :
    (parse_all (some samplePdf) (some samplePdf) ghFetchAbsent
        ⟨resumeRespOk, linkedinRespOk, aggRespBadSources⟩).toOption.bind projectSourcesOf
      = some [["github", "github"], []]
    ∧ parse_github_profile ghFetchAbsent = ⟨[], [], []⟩ :=
  ⟨rfl, rfl⟩

/-- C6 (amended): entity `source` lists pass through from the validated
oracle output unchanged (shown for projects): schema validation only
constrains each element to the closed literal set, so emptiness, duplicates
and sources that did not contribute are all accepted and returned. -/
theorem c6_source_lists_passthrough
    (resume linkedin : Pdf) (gh : GhFetch) (o : Oracles)
    (r : Res.Resume) (l : LIn.LinkedInProfile) (P : FinalSchema)
    (hr : Res.validateResume o.resumeResp = some r)
    (hl : LIn.validateLinkedIn o.linkedinResp = some l)
    (hv : validateFinal o.aggResp = some P) :
    (parse_all (some resume) (some linkedin) gh o).toOption.bind projectSourcesOf
      = some (P.projects.map (fun pr => pr.source.map srcName)) := by
  simp only [parse_all, parse_resume, parse_linkedin, hr, hl, hv]
  simp [Except.toOption, projectSourcesOf_serializeFinal]

/-- C6 (witness): the amended theorem at the counterexample's concrete run. -/
theorem c6_source_lists_passthrough_witness :
    (parse_all (some samplePdf) (some samplePdf) ghFetchAbsent
        ⟨resumeRespOk, linkedinRespOk, aggRespBadSources⟩).toOption.bind projectSourcesOf
      = some (cProfileBadSources.projects.map (fun pr => pr.source.map srcName)) :=
  c6_source_lists_passthrough samplePdf samplePdf ghFetchAbsent _ cResume1
    cLinkedIn1 cProfileBadSources rfl rfl rfl

/-- C7 (counterexample): a repository list containing exactly one non-fork
repository — whose record lacks `html_url`, so `Project` validation fails on
`AnyUrl('')` — yields zero `Project` entities, not one per non-fork repo. -/
theorem c7_counterexample_invalid_repo_skipped :
    (parse_github_profile ghFetchNoUrl).projects = []
    ∧ ((ghFetchNoUrl.repos.getD []).filter (fun r => !r.fork)).length = 1 :=
  ⟨rfl, rfl⟩

/-- C7 (amended): for every successfully fetched repository list, the adapter
produces exactly one `Project` per fetched non-fork repository whose
`html_url` passes URL validation; forks are always excluded and a repo whose
`Project` fails validation is skipped. -/
theorem c7_project_per_valid_nonfork_repo (u : GhUser) (rs : List GhRepo)
    (ru : String) (hru : u.repos_url = some ru) (hne : ru ≠ "") :
    (parse_github_profile ⟨some u, some rs⟩).projects.length
      = ((rs.take 100).filter
          (fun r => !r.fork && (parseUrl (r.html_url.getD "")).isSome)).length := by
  simp only [parse_github_profile, hru]
  simp only [if_neg hne]
  by_cases hrd : rs.take 100 = []
  · simp [hrd]
  · simp [hrd, processRepos_fst_length]

/-- C7 (witness): a user with 5 valid non-fork repositories and 2 forks
yields exactly 5 `Project` entities. -/
theorem c7_project_per_valid_nonfork_repo_witness :
    ghUserOk.repos_url = some "https://api.github.com/users/ada/repos"
    ∧ ("https://api.github.com/users/ada/repos" : String) ≠ ""
    ∧ (parse_github_profile ⟨some ghUserOk, some ghSeven⟩).projects.length
        = ((ghSeven.take 100).filter
            (fun r => !r.fork && (parseUrl (r.html_url.getD "")).isSome)).length
    ∧ (parse_github_profile ⟨some ghUserOk, some ghSeven⟩).projects.length = 5 :=
  ⟨rfl, by decide,
   c7_project_per_valid_nonfork_repo ghUserOk ghSeven _ rfl (by decide), rfl⟩

/-- C8 (counterexample): two languages tied at 5 bytes and first encountered
in the order `b`, `a` are ranked `["b", "a"]` — the tie is not broken by name
ascending (which would give `["a", "b"]`). -/
theorem c8_counterexample_tie_not_name_ascending :
    (parse_github_profile ghFetchTie).skills
      = [⟨"Programming Languages (from GitHub)", ["b", "a"]⟩]
    ∧ (["b", "a"] : List String) ≠ ["a", "b"] :=
  ⟨rfl, by decide⟩

/-- C8 (amended): the adapter's language ranking (a stable sort of the
accumulated byte-count list, which is in first-encounter order) is weakly
descending in byte count, is a permutation of the accumulated list, and
preserves the relative (first-encounter) order of byte-count ties — it does
not order ties by name. -/
theorem c8_ranked_desc_ties_first_encounter (langs : List (String × Nat)) :
    (rankedLanguages langs).Pairwise (fun a b => b.2 ≤ a.2)
    ∧ (rankedLanguages langs).Perm langs
    ∧ ∀ x y, List.Sublist [x, y] langs → x.2 = y.2 →
        List.Sublist [x, y] (rankedLanguages langs) := by
  refine ⟨?_, List.perm_insertionSort byteGe langs, ?_⟩
  · exact List.sorted_insertionSort byteGe langs
  · intro x y hs he
    have hp : List.Pairwise byteGe [x, y] := by
      refine List.pairwise_cons.mpr ⟨?_, List.pairwise_singleton _ _⟩
      intro b hb
      rw [List.mem_singleton] at hb
      subst hb
      exact le_of_eq he.symm
    exact List.sublist_insertionSort hp hs

/-- C8 (witness): the amended theorem at the tied two-language histogram of
the counterexample — the tied pair stays in first-encounter order. -/
theorem c8_ranked_desc_ties_first_encounter_witness :
    List.Sublist [(("b" : String), (5 : Nat)), ("a", 5)] [("b", 5), ("a", 5)]
    ∧ ((("b" : String), (5 : Nat)).2 = ((("a" : String), (5 : Nat))).2)
    ∧ List.Sublist [(("b" : String), (5 : Nat)), ("a", 5)]
        (rankedLanguages [("b", 5), ("a", 5)]) :=
  ⟨List.Sublist.refl _, rfl,
   (c8_ranked_desc_ties_first_encounter [("b", 5), ("a", 5)]).2.2
     ("b", 5) ("a", 5) (List.Sublist.refl _) rfl⟩

/-- C9: serializing any valid `UnifiedProfile` object (one whose URL- and
email-typed fields hold validated, normalised values — exactly what pydantic
validation produces) to its JSON form and parsing that JSON back against the
schema yields an equal object. -/
theorem c9_serialize_parse_roundtrip (p : FinalSchema) (h : finalValid p = true) :
    validateFinal (serializeFinal p) = some p := by
  obtain ⟨ci, sl, edu, ex, prj, sk, cert, ach, por, crs, ds, lu⟩ := p
  simp only [finalValid, Bool.and_eq_true, List.all_eq_true] at h
  obtain ⟨⟨⟨hem, hso⟩, hprj⟩, hcert⟩ := h
  have h1 := validateContactInfo_rt ci hem
  have h2 := validateSocialLinks_rt sl hso
  have h3 : decList validateEducation (edu.map serializeEducation) = some edu :=
    decList_map edu (fun a _ => validateEducation_rt a)
  have h4 : decList validateExperience (ex.map serializeExperience) = some ex :=
    decList_map ex (fun a _ => validateExperience_rt a)
  have h5 : decList validateProject (prj.map serializeProject) = some prj :=
    decList_map prj (fun a ha => validateProject_rt a (hprj a ha))
  have h6 : decList validateSkillCategory (sk.map serializeSkillCategory) = some sk :=
    decList_map sk (fun a _ => validateSkillCategory_rt a)
  have h7 : decList validateCertification (cert.map serializeCertification) = some cert :=
    decList_map cert (fun a ha => validateCertification_rt a (hcert a ha))
  have h8 : decList validatePosition (por.map serializePosition) = some por :=
    decList_map por (fun a _ => validatePosition_rt a)
  simp [serializeFinal, validateFinal, reqField, optField, listField, getField,
    rtOptStr, decList_serStr, decList_serSrc3, h1, h2, h3, h4, h5, h6, h7, h8]

/-- C9 (witness): the round trip at a richly populated concrete profile. -/
theorem c9_serialize_parse_roundtrip_witness :
    finalValid cProfile9 = true
    ∧ validateFinal (serializeFinal cProfile9) = some cProfile9 :=
  ⟨by decide, c9_serialize_parse_roundtrip cProfile9 (by decide)⟩

/-- C10: the adapter requests a single `?per_page=100` page of repositories
and never paginates, so for every username and server state it produces at
most 100 `Project` entities. -/
theorem c10_at_most_100_projects (gh : GhFetch) :
    (parse_github_profile gh).projects.length ≤ 100 := by
  rcases gh with ⟨user, repos⟩
  cases user with
  | none => simp [parse_github_profile]
  | some u =>
      simp only [parse_github_profile]
      rcases hru : u.repos_url with _ | ru
      · simp
      · by_cases hne : ru = ""
        · simp [hne]
        · simp only [if_neg hne]
          rcases repos with _ | rs
          · simp
          · by_cases hrd : rs.take 100 = []
            · simp [hrd]
            · simp only [if_neg hrd]
              have h1 := processRepos_fst_length (rs.take 100) []
              have h2 : ((rs.take 100).filter
                  (fun r => !r.fork && (parseUrl (r.html_url.getD "")).isSome)).length
                    ≤ (rs.take 100).length := List.length_filter_le _ _
              have h3 : (rs.take 100).length ≤ 100 := by
                simp [List.length_take]
              simp only [h1]
              omega
